import Mathlib

attribute [local semireducible] Rat.mul Rat.add Rat.sub Rat.inv

/-!
Verification of the YouTube helper program (`src/main.py`).

The program is a thin UI wrapper around an external extraction library.
We shallowly embed its pure logic:

* `is_valid_youtube_url` — regex-based URL validation; each Python regex is a
  concatenation of optional groups and alternations of literals, so
  `re.search` succeeds exactly when some expansion of the alternatives occurs
  as a substring of the input.  We embed that search semantics directly.
* `get_video_info` — normalisation of the library's metadata record into a
  `VideoInfo` plus bucketing of renditions into video+audio and audio-only
  format options.  Python dictionary `get` with absent keys is modelled with
  `Option`; the library call that may raise is modelled with `Except`.
* `format_filesize` / `format_duration` — human-readable formatting.  The
  Python float arithmetic divides byte counts by 1024, which is exact for the
  sizes at hand, so the value is modelled with `ℚ`; `"%.1f"` rounds half to
  even, embedded in `fmtOneDec`.
* `download_video` — a single library call, success flag and message; the
  library is modelled as a sequence of attempt outcomes of which the code
  consumes only attempt `0` (no retry).
-/

/-- A rendition record from the extraction library's `formats` list.
`Option` models an absent dictionary key; `format_id` is accessed with
`f['format_id']` (a mandatory key) in the source, so it is a plain field. -/
structure RawFormat where
  format_id : String
  vcodec : Option String
  acodec : Option String
  format_note : Option String
  height : Option Int
  abr : Option Int
  ext : Option String
  filesize : Option Int
deriving DecidableEq

/-- One entry of the `formats` list built by `get_video_info`. -/
structure FormatOption where
  format_id : String
  quality : String
  ext : String
  filesize : Int
  type : String
deriving DecidableEq

/-- The metadata record returned by the extraction library. -/
structure RawInfo where
  title : Option String
  duration : Option Int
  uploader : Option String
  view_count : Option Int
  upload_date : Option String
  thumbnail : Option String
  formats : Option (List RawFormat)
deriving DecidableEq

/-- The `video_info` dictionary built by `get_video_info`. -/
structure VideoInfo where
  title : String
  duration : Int
  uploader : String
  view_count : Int
  upload_date : String
  thumbnail : String
deriving DecidableEq

/-- The outcome of `get_video_info`: the returned pair plus the error
messages emitted through `st.error`. -/
structure GetVideoInfoResult where
  info : Option VideoInfo
  formats : Option (List FormatOption)
  errors : List String
deriving DecidableEq

/-- The dynamically typed `quality` value: `f.get('format_note',
f.get('height', 'Unknown'))` is a string or an int, and the source branches
on `isinstance(quality, int)`. -/
inductive QVal where
  | str (s : String)
  | int (n : Int)
deriving DecidableEq

/-- `f.get(primary_key, f.get(numeric_key, 'Unknown'))`. -/
def qGet (note : Option String) (fallback : Option Int) : QVal :=
  match note with
  | some s => QVal.str s
  | none =>
    match fallback with
    | some n => QVal.int n
    | none => QVal.str "Unknown"

/-- `f"{quality}<suf>" if isinstance(quality, int) else quality`. -/
def qRender : QVal → String → String
  | QVal.int n, suf => toString n ++ suf
  | QVal.str s, _ => s

/-- The dictionary appended for a video+audio rendition (`main.py` lines
95–104). -/
def mkVAOption (f : RawFormat) : FormatOption :=
  { format_id := f.format_id
    quality := qRender (qGet f.format_note f.height) "p"
    ext := f.ext.getD "mp4"
    filesize := f.filesize.getD 0
    type := "video+audio" }

/-- The dictionary appended for an audio-only rendition (`main.py` lines
109–118). -/
def mkAOOption (f : RawFormat) : FormatOption :=
  { format_id := f.format_id
    quality := qRender (qGet f.format_note f.abr) "kbps"
    ext := f.ext.getD "mp3"
    filesize := f.filesize.getD 0
    type := "audio-only" }

/-- `f.get('vcodec') != 'none' and f.get('acodec') != 'none'`; an absent key
yields Python `None`, which is not the string `'none'`. -/
def vaCond (f : RawFormat) : Bool :=
  (f.vcodec != some "none") && (f.acodec != some "none")

/-- `f.get('vcodec') == 'none' and f.get('acodec') != 'none'`. -/
def aoCond (f : RawFormat) : Bool :=
  (f.vcodec == some "none") && (f.acodec != some "none")

/-- First loop of `get_video_info`: append an option for every rendition
passing the video+audio test, in the library's order. -/
def vaLoop : List RawFormat → List FormatOption
  | [] => []
  | f :: fs => if vaCond f then mkVAOption f :: vaLoop fs else vaLoop fs

/-- Second loop of `get_video_info`: append an option for every rendition
passing the audio-only test, in the library's order. -/
def aoLoop : List RawFormat → List FormatOption
  | [] => []
  | f :: fs => if aoCond f then mkAOOption f :: aoLoop fs else aoLoop fs

/-- The complete `formats` list: the first loop's output followed by the
second loop's output. -/
def buildFormats (fs : List RawFormat) : List FormatOption :=
  vaLoop fs ++ aoLoop fs

/-- The `video_info` record with the source's `info.get(…, default)`
substitutions (`main.py` lines 81–88). -/
def mkVideoInfo (info : RawInfo) : VideoInfo :=
  { title := info.title.getD "Unknown Title"
    duration := info.duration.getD 0
    uploader := info.uploader.getD "Unknown"
    view_count := info.view_count.getD 0
    upload_date := info.upload_date.getD ""
    thumbnail := info.thumbnail.getD "" }

/-- `get_video_info`: the library call either returns a metadata record or
raises; on success the record is normalised and the renditions bucketed
(`if 'formats' in info` guards the loops), on failure the exception is
caught, an error is shown and `None, None` is returned. -/
def get_video_info (extract : Except String RawInfo) : GetVideoInfoResult :=
  match extract with
  | Except.ok info =>
    { info := some (mkVideoInfo info)
      formats := some (match info.formats with
        | some fs => buildFormats fs
        | none => [])
      errors := [] }
  | Except.error e =>
    { info := none
      formats := none
      errors := ["Error fetching video info: " ++ e] }

/-- Floor of a rational (denominators are positive, so flooring the numerator
by the denominator is exact). -/
def ratFloor (q : ℚ) : ℤ := Int.fdiv q.num (q.den : ℤ)

/-- Round to the nearest integer, ties to even — the rounding applied by
Python's `"%.1f"` formatting to the (here exact) scaled value. -/
def roundHalfEven (q : ℚ) : ℤ :=
  if q - (ratFloor q : ℚ) < (1 : ℚ) / 2 then ratFloor q
  else if (1 : ℚ) / 2 < q - (ratFloor q : ℚ) then ratFloor q + 1
  else if ratFloor q % 2 = 0 then ratFloor q else ratFloor q + 1

/-- `f"{x:.1f}"`: one digit after the decimal point, ties to even. -/
def fmtOneDec (q : ℚ) : String :=
  if roundHalfEven (q * 10) < 0 then
    "-" ++ toString ((roundHalfEven (q * 10)).natAbs / 10) ++ "." ++
      toString ((roundHalfEven (q * 10)).natAbs % 10)
  else
    toString ((roundHalfEven (q * 10)).toNat / 10) ++ "." ++
      toString ((roundHalfEven (q * 10)).toNat % 10)

/-- The unit ladder walked by `format_filesize` before the `TB` fallthrough. -/
def filesizeUnits : List String := ["B", "KB", "MB", "GB"]

/-- The `for unit in [...]` loop of `format_filesize`: return at the first
unit where the value is below 1024, otherwise divide by 1024 and continue;
after the loop the value is rendered in `TB`. -/
def filesizeLoop : ℚ → List String → String
  | size, [] => fmtOneDec size ++ " TB"
  | size, u :: us =>
    if size < 1024 then fmtOneDec size ++ " " ++ u
    else filesizeLoop (size / 1024) us

/-- `format_filesize` (`main.py` lines 126–135). -/
def format_filesize (size_bytes : ℚ) : String :=
  if size_bytes = 0 then "Unknown size"
  else filesizeLoop size_bytes filesizeUnits

/-- `f"{n:02d}"` for a non-negative value: zero-pad to two digits. -/
def pad2 (n : ℕ) : String :=
  if n < 10 then "0" ++ toString n else toString n

/-- `format_duration` (`main.py` lines 137–149). -/
def format_duration (seconds : ℕ) : String :=
  if seconds = 0 then "Unknown duration"
  else if seconds / 3600 > 0 then
    pad2 (seconds / 3600) ++ ":" ++ pad2 (seconds % 3600 / 60) ++ ":" ++
      pad2 (seconds % 60)
  else
    pad2 (seconds % 3600 / 60) ++ ":" ++ pad2 (seconds % 60)

/-- `download_video`: one `ydl.download` call inside `try`; the library is
modelled as the outcomes of successive download attempts, of which the code
performs exactly attempt `0`.  Success returns `(True, …)`; an exception is
caught and returned as `(False, "Download failed: " + str(e))`. -/
def download_video (url format_id : String)
    (attempt : ℕ → Except String Unit) : Bool × String :=
  match attempt 0 with
  | Except.ok _ => (true, "Download completed successfully!")
  | Except.error e => (false, "Download failed: " ++ e)

/-- Substring occurrence test on character lists: does `sub` occur
contiguously inside the second argument? -/
def containsSub (sub : List Char) : List Char → Bool
  | [] => sub.isEmpty
  | c :: t => sub.isPrefixOf (c :: t) || containsSub sub t

/-- `re.search` of a literal: `sub` occurs somewhere in `s`. -/
def strContains (s sub : String) : Bool := containsSub sub.data s.data

/-- Expansions of the optional group `(https?://)?`. -/
def schemeAlts : List String := ["", "http://", "https://"]

/-- Expansions of the optional group `(www\.)?`. -/
def wwwAlts : List String := ["", "www."]

/-- The alternation `(youtube|youtu|youtube-nocookie)`. -/
def hostAlts : List String := ["youtube", "youtu", "youtube-nocookie"]

/-- The alternation `(com|be)`. -/
def tldAlts : List String := ["com", "be"]

/-- `re.search` of the first pattern: some expansion of
`(https?://)?(www\.)?(youtube|youtu|youtube-nocookie)\.(com|be)/` occurs in
the input. -/
def pattern1 (url : String) : Bool :=
  schemeAlts.any fun sc => wwwAlts.any fun w =>
    hostAlts.any fun host => tldAlts.any fun tld =>
      strContains url ((sc ++ w) ++ (host ++ "." ++ tld ++ "/"))

/-- `re.search` of `(https?://)?(www\.)?youtu\.be/`. -/
def pattern2 (url : String) : Bool :=
  schemeAlts.any fun sc => wwwAlts.any fun w =>
    strContains url ((sc ++ w) ++ "youtu.be/")

/-- `re.search` of `(https?://)?(www\.)?youtube\.com/watch\?v=`. -/
def pattern3 (url : String) : Bool :=
  schemeAlts.any fun sc => wwwAlts.any fun w =>
    strContains url ((sc ++ w) ++ "youtube.com/watch?v=")

/-- `re.search` of `(https?://)?(www\.)?youtube\.com/embed/`. -/
def pattern4 (url : String) : Bool :=
  schemeAlts.any fun sc => wwwAlts.any fun w =>
    strContains url ((sc ++ w) ++ "youtube.com/embed/")

/-- `re.search` of `(https?://)?(www\.)?youtube\.com/v/`. -/
def pattern5 (url : String) : Bool :=
  schemeAlts.any fun sc => wwwAlts.any fun w =>
    strContains url ((sc ++ w) ++ "youtube.com/v/")

/-- `is_valid_youtube_url` (`main.py` lines 54–67): true when any of the
five patterns matches somewhere in the input. -/
def is_valid_youtube_url (url : String) : Bool :=
  pattern1 url || pattern2 url || pattern3 url || pattern4 url || pattern5 url

/-- The host substrings whose occurrence is exactly equivalent to one of the
five patterns matching: every expansion of every pattern contains one of
these, and each of these is itself an expansion. -/
def recognizedHostSubstrings : List String :=
  ["youtube.com/", "youtube.be/", "youtu.com/", "youtu.be/",
   "youtube-nocookie.com/", "youtube-nocookie.be/"]

/-- Sample rendition: codecs present, descriptive note present. -/
def fmtWithNote : RawFormat :=
  ⟨"22", some "h264", some "aac", some "hd", some 720, none, some "mp4", some 1000⟩

/-- Sample rendition: no note, numeric height present. -/
def fmtWithHeight : RawFormat :=
  ⟨"22", some "h264", some "aac", none, some 720, none, some "mp4", some 1000⟩

/-- Sample rendition: no note, no numeric fallback. -/
def fmtNoMeta : RawFormat :=
  ⟨"22", some "h264", some "aac", none, none, none, some "mp4", some 1000⟩

/-- Sample audio rendition: no note, numeric average bitrate present. -/
def fmtWithAbr : RawFormat :=
  ⟨"140", some "none", some "aac", none, none, some 128, some "m4a", some 1000⟩

/-- Sample rendition with a video track and audio codec `"none"`. -/
def fmtVideoNoAudio : RawFormat :=
  ⟨"137", some "h264", some "none", none, some 1080, none, some "mp4", some 1000⟩

/-- Sample rendition whose `vcodec` key is absent and whose audio codec is
`"aac"`. -/
def fmtAbsentVcodec : RawFormat :=
  ⟨"18", none, some "aac", none, some 360, none, some "mp4", some 1000⟩

/-- A library record with every optional field absent. -/
def rawEmptyInfo : RawInfo := ⟨none, none, none, none, none, none, none⟩

/-- A library that succeeds on every download attempt. -/
def okAttempt : ℕ → Except String Unit := fun _ => Except.ok ()

/-- A library that raises `"boom"` on every download attempt. -/
def errAttempt : ℕ → Except String Unit := fun _ => Except.error "boom"

/-! ## Helper lemmas -/

theorem containsSub_iff (s sub : List Char) :
    containsSub sub s = true ↔ sub <:+: s := by
  induction s with
  | nil =>
    simp only [containsSub, List.isEmpty_iff, List.infix_nil]
  | cons c t ih =>
    simp [containsSub, List.infix_cons_iff, ih]

theorem strContains_iff (s sub : String) :
    strContains s sub = true ↔ sub.data <:+: s.data :=
  containsSub_iff s.data sub.data

theorem strContains_trans {u a b : String} (h1 : strContains a b = true)
    (h2 : strContains u a = true) : strContains u b = true :=
  (strContains_iff u b).2
    (((strContains_iff a b).1 h1).trans ((strContains_iff u a).1 h2))

theorem contains_of_append {u : String} (p x : String)
    (h : strContains u (p ++ x) = true) : strContains u x = true := by
  refine (strContains_iff u x).2 (List.IsInfix.trans ?_ ((strContains_iff u (p ++ x)).1 h))
  rw [String.data_append]
  exact (List.suffix_append p.data x.data).isInfix

theorem strContains_append_self (p x : String) :
    strContains (p ++ x) x = true := by
  refine (strContains_iff (p ++ x) x).2 ?_
  rw [String.data_append]
  exact (List.suffix_append p.data x.data).isInfix

theorem vaLoop_eq (fs : List RawFormat) :
    vaLoop fs = (fs.filter vaCond).map mkVAOption := by
  induction fs with
  | nil => rfl
  | cons f fs ih => cases h : vaCond f <;> simp [vaLoop, List.filter_cons, h, ih]

theorem aoLoop_eq (fs : List RawFormat) :
    aoLoop fs = (fs.filter aoCond).map mkAOOption := by
  induction fs with
  | nil => rfl
  | cons f fs ih => cases h : aoCond f <;> simp [aoLoop, List.filter_cons, h, ih]

theorem buildFormats_eq (fs : List RawFormat) :
    buildFormats fs =
      (fs.filter vaCond).map mkVAOption ++ (fs.filter aoCond).map mkAOOption := by
  rw [buildFormats, vaLoop_eq, aoLoop_eq]

/-! ## Claim theorems -/

/-- C1: a rendition whose codec fields are present is put in the
video+audio bucket exactly when both codecs differ from `"none"`, in the
audio-only bucket exactly when the video codec is `"none"` and the audio
codec is not; a rendition whose audio codec is `"none"` contributes to
neither bucket of the returned format list. -/
theorem C1_classification (f : RawFormat) (v a : String)
    (hv : f.vcodec = some v) (ha : f.acodec = some a) :
    (vaCond f = true ↔ (v ≠ "none" ∧ a ≠ "none")) ∧
    (aoCond f = true ↔ (v = "none" ∧ a ≠ "none")) ∧
    (a = "none" →
      ∀ l1 l2, buildFormats (l1 ++ f :: l2) = buildFormats (l1 ++ l2)) := by
  refine ⟨by simp [vaCond, hv, ha], by simp [aoCond, hv, ha], ?_⟩
  intro hnone l1 l2
  subst hnone
  have hva : vaCond f = false := by simp [vaCond, ha]
  have hao : aoCond f = false := by simp [aoCond, ha]
  simp [buildFormats_eq, List.filter_append, List.filter_cons, hva, hao]

/-- C1 witness: a rendition with video codec `"h264"` and audio codec
`"none"` fails both tests and is dropped from the format list. -/
theorem C1_classification_witness :
    (vaCond fmtVideoNoAudio = true ↔ ("h264" ≠ "none" ∧ "none" ≠ "none")) ∧
    (aoCond fmtVideoNoAudio = true ↔ ("h264" = "none" ∧ "none" ≠ "none")) ∧
    buildFormats ([] ++ fmtVideoNoAudio :: []) = buildFormats ([] ++ []) := by
  have h := C1_classification fmtVideoNoAudio "h264" "none" rfl rfl
  exact ⟨h.1, h.2.1, h.2.2 rfl [] []⟩

/-- C2: the quality label prefers the library's descriptive note; with the
note absent it falls back to the numeric pixel height (video+audio) or the
numeric average bitrate (audio-only), appending `"p"` resp. `"kbps"` exactly
when that numeric fallback is present; with neither, the label is the
non-numeric fallback `"Unknown"` with no unit appended. -/
theorem C2_quality_label (f : RawFormat) :
    (∀ s, f.format_note = some s →
      (mkVAOption f).quality = s ∧ (mkAOOption f).quality = s) ∧
    (f.format_note = none → ∀ h : Int, f.height = some h →
      (mkVAOption f).quality = toString h ++ "p") ∧
    (f.format_note = none → f.height = none →
      (mkVAOption f).quality = "Unknown") ∧
    (f.format_note = none → ∀ b : Int, f.abr = some b →
      (mkAOOption f).quality = toString b ++ "kbps") ∧
    (f.format_note = none → f.abr = none →
      (mkAOOption f).quality = "Unknown") := by
  refine ⟨?_, ?_, ?_, ?_, ?_⟩ <;> intros <;>
    simp_all [mkVAOption, mkAOOption, qGet, qRender]

/-- C2 witness: the note `"hd"` wins over the height; height 720 renders as
`"720p"`; bitrate 128 renders as `"128kbps"`; no metadata gives
`"Unknown"`. -/
theorem C2_quality_label_witness :
    (mkVAOption fmtWithNote).quality = "hd" ∧
    (mkVAOption fmtWithHeight).quality = "720p" ∧
    (mkVAOption fmtNoMeta).quality = "Unknown" ∧
    (mkAOOption fmtWithAbr).quality = "128kbps" ∧
    (mkAOOption fmtNoMeta).quality = "Unknown" := by
  refine ⟨((C2_quality_label fmtWithNote).1 "hd" rfl).1,
    ((C2_quality_label fmtWithHeight).2.1 rfl 720 rfl).trans (by decide),
    (C2_quality_label fmtNoMeta).2.2.1 rfl rfl,
    ((C2_quality_label fmtWithAbr).2.2.2.1 rfl 128 rfl).trans (by decide),
    (C2_quality_label fmtNoMeta).2.2.2.2 rfl rfl⟩

/-- C3: when the extraction library raises, `get_video_info` returns no
`VideoInfo` and no format list, and emits exactly one non-empty error
message. -/
theorem C3_error_path (e : String) :
    (get_video_info (Except.error e)).info = none ∧
    (get_video_info (Except.error e)).formats = none ∧
    (get_video_info (Except.error e)).errors =
      ["Error fetching video info: " ++ e] ∧
    0 < ("Error fetching video info: " ++ e).length := by
  refine ⟨rfl, rfl, rfl, ?_⟩
  rw [String.length_append]
  have h : ("Error fetching video info: ").length = 27 := rfl
  rw [h]
  omega

/-- C7: on a successful fetch the produced `VideoInfo` substitutes the fixed
defaults for absent fields: title `"Unknown Title"`, uploader `"Unknown"`,
duration and view count `0`, upload date and thumbnail `""`. -/
theorem C7_defaults (raw : RawInfo) :
    (get_video_info (Except.ok raw)).info = some (mkVideoInfo raw) ∧
    (raw.title = none → (mkVideoInfo raw).title = "Unknown Title") ∧
    (raw.uploader = none → (mkVideoInfo raw).uploader = "Unknown") ∧
    (raw.duration = none → (mkVideoInfo raw).duration = 0) ∧
    (raw.view_count = none → (mkVideoInfo raw).view_count = 0) ∧
    (raw.upload_date = none → (mkVideoInfo raw).upload_date = "") ∧
    (raw.thumbnail = none → (mkVideoInfo raw).thumbnail = "") := by
  refine ⟨rfl, ?_, ?_, ?_, ?_, ?_, ?_⟩ <;> intro h <;> simp [mkVideoInfo, h]

/-- C7 witness: a record with every field absent yields all six defaults. -/
theorem C7_defaults_witness :
    (get_video_info (Except.ok rawEmptyInfo)).info = some (mkVideoInfo rawEmptyInfo) ∧
    (mkVideoInfo rawEmptyInfo).title = "Unknown Title" ∧
    (mkVideoInfo rawEmptyInfo).uploader = "Unknown" ∧
    (mkVideoInfo rawEmptyInfo).duration = 0 ∧
    (mkVideoInfo rawEmptyInfo).view_count = 0 ∧
    (mkVideoInfo rawEmptyInfo).upload_date = "" ∧
    (mkVideoInfo rawEmptyInfo).thumbnail = "" := by
  obtain ⟨h0, h1, h2, h3, h4, h5, h6⟩ := C7_defaults rawEmptyInfo
  exact ⟨h0, h1 rfl, h2 rfl, h3 rfl, h4 rfl, h5 rfl, h6 rfl⟩

/-- C9: the format list is the order-preserving image of the library list's
video+audio renditions followed by the order-preserving image of its
audio-only renditions, so renditions of the same kind keep the library's
relative order and every video+audio entry precedes every audio-only
entry. -/
theorem C9_ordering (fs : List RawFormat) :
    buildFormats fs =
      (fs.filter vaCond).map mkVAOption ++ (fs.filter aoCond).map mkAOOption ∧
    ((fs.filter vaCond).map mkVAOption).all
      (fun o => o.type == "video+audio") = true ∧
    ((fs.filter aoCond).map mkAOOption).all
      (fun o => o.type == "audio-only") = true := by
  refine ⟨buildFormats_eq fs, ?_, ?_⟩ <;>
  · simp only [List.all_eq_true, List.mem_map, List.mem_filter]
    rintro o ⟨f, hf, rfl⟩
    rfl

/-- C10: a rendition whose video-codec key is absent (not the string
`"none"`) and whose audio codec is present and not `"none"` passes the
video+audio test, fails the audio-only test, and is surfaced as a
video+audio option. -/
theorem C10_absent_vcodec (f : RawFormat) (a : String)
    (hv : f.vcodec = none) (ha : f.acodec = some a) (hne : a ≠ "none") :
    vaCond f = true ∧ aoCond f = false ∧
    buildFormats [f] = [mkVAOption f] := by
  have hva : vaCond f = true := by simp [vaCond, hv, ha, hne]
  have hao : aoCond f = false := by simp [aoCond, hv]
  refine ⟨hva, hao, ?_⟩
  simp [buildFormats, vaLoop, aoLoop, hva, hao]

/-- C10 witness: a rendition with no `vcodec` key and audio codec `"aac"`
lands in the video+audio bucket. -/
theorem C10_absent_vcodec_witness :
    vaCond fmtAbsentVcodec = true ∧ aoCond fmtAbsentVcodec = false ∧
    buildFormats [fmtAbsentVcodec] = [mkVAOption fmtAbsentVcodec] :=
  C10_absent_vcodec fmtAbsentVcodec "aac" rfl rfl (by decide)

/-- C8: `download_video` is a total function of the single download attempt
it performs: on success it returns the flag `true` with the success message;
on a raised error `e` it returns the flag `false` with a message containing
the library's message `e` verbatim; and its result depends only on attempt
`0` — no further attempt is consulted (no retry). -/
theorem C8_download (url fid : String) (attempt : ℕ → Except String Unit) :
    (attempt 0 = Except.ok () →
      download_video url fid attempt = (true, "Download completed successfully!")) ∧
    (∀ e, attempt 0 = Except.error e →
      download_video url fid attempt = (false, "Download failed: " ++ e) ∧
      strContains ("Download failed: " ++ e) e = true) ∧
    (∀ attempt2 : ℕ → Except String Unit, attempt 0 = attempt2 0 →
      download_video url fid attempt = download_video url fid attempt2) := by
  refine ⟨?_, ?_, ?_⟩
  · intro h
    simp [download_video, h]
  · intro e h
    exact ⟨by simp [download_video, h], strContains_append_self _ _⟩
  · intro a2 h
    simp [download_video, h]

/-- C8 witness: a succeeding library yields the success pair, a library
raising `"boom"` yields the failure pair whose message contains `"boom"`. -/
theorem C8_download_witness :
    download_video "u" "22" okAttempt = (true, "Download completed successfully!") ∧
    download_video "u" "22" errAttempt = (false, "Download failed: boom") ∧
    strContains "Download failed: boom" "boom" = true ∧
    download_video "u" "22" errAttempt = download_video "u" "22" errAttempt := by
  obtain ⟨h1, -, -⟩ := C8_download "u" "22" okAttempt
  obtain ⟨-, g2, g3⟩ := C8_download "u" "22" errAttempt
  have e2 := g2 "boom" rfl
  exact ⟨h1 rfl, e2.1, e2.2, g3 errAttempt rfl⟩

/-- C6: `format_duration` maps `0` to `"Unknown duration"`, a duration under
one hour to zero-padded `"MM:SS"`, and an hour or more to `"HH:MM:SS"`;
`75` gives `"01:15"` and `3661` gives `"01:01:01"`. -/
theorem C6_duration :
    format_duration 0 = "Unknown duration" ∧
    (∀ s : ℕ, 0 < s → s < 3600 →
      format_duration s = pad2 (s / 60) ++ ":" ++ pad2 (s % 60)) ∧
    (∀ s : ℕ, 3600 ≤ s →
      format_duration s =
        pad2 (s / 3600) ++ ":" ++ pad2 (s % 3600 / 60) ++ ":" ++ pad2 (s % 60)) ∧
    format_duration 75 = "01:15" ∧
    format_duration 3661 = "01:01:01" := by
  refine ⟨rfl, ?_, ?_, by decide, by decide⟩
  · intro s h1 h2
    have hz : ¬(s = 0) := by omega
    have hh : s / 3600 = 0 := Nat.div_eq_of_lt h2
    have hm : s % 3600 = s := Nat.mod_eq_of_lt h2
    simp [format_duration, hz, hh, hm]
  · intro s h
    have hz : ¬(s = 0) := by omega
    have hh : 0 < s / 3600 := Nat.div_pos h (by norm_num)
    simp [format_duration, hz, hh]

/-- C6 witness: the two quantified shapes evaluated at 75 and 3661 seconds. -/
theorem C6_duration_witness :
    format_duration 75 = pad2 (75 / 60) ++ ":" ++ pad2 (75 % 60) ∧
    format_duration 3661 =
      pad2 (3661 / 3600) ++ ":" ++ pad2 (3661 % 3600 / 60) ++ ":" ++
        pad2 (3661 % 60) := by
  obtain ⟨-, hu, ho, -, -⟩ := C6_duration
  exact ⟨hu 75 (by norm_num) (by norm_num), ho 3661 (by norm_num)⟩

theorem filesizeLoop_cons (q : ℚ) (u : String) (us : List String) :
    filesizeLoop q (u :: us) =
      if q < 1024 then fmtOneDec q ++ " " ++ u
      else filesizeLoop (q / 1024) us := rfl

theorem filesizeLoop_nil (q : ℚ) :
    filesizeLoop q [] = fmtOneDec q ++ " TB" := rfl

/-- C5: `format_filesize` returns `"Unknown size"` at 0, walks the unit
ladder B, KB, MB, GB dividing by 1024 and stops at the first unit where the
value is below 1024 (falling through to TB), rendering the value to one
decimal place; 500 gives `"500.0 B"`, 2048 gives `"2.0 KB"` and 1048576
gives `"1.0 MB"`. -/
theorem C5_filesize :
    format_filesize 0 = "Unknown size" ∧
    format_filesize 500 = "500.0 B" ∧
    format_filesize 2048 = "2.0 KB" ∧
    format_filesize 1048576 = "1.0 MB" ∧
    (∀ n : ℕ, 0 < n → n < 1024 →
      format_filesize (n : ℚ) = fmtOneDec (n : ℚ) ++ " B") ∧
    (∀ n : ℕ, 1024 ≤ n → n < 1048576 →
      format_filesize (n : ℚ) = fmtOneDec ((n : ℚ) / 1024) ++ " KB") ∧
    (∀ n : ℕ, 1048576 ≤ n → n < 1073741824 →
      format_filesize (n : ℚ) = fmtOneDec ((n : ℚ) / 1048576) ++ " MB") ∧
    (∀ n : ℕ, 1073741824 ≤ n → n < 1099511627776 →
      format_filesize (n : ℚ) = fmtOneDec ((n : ℚ) / 1073741824) ++ " GB") ∧
    (∀ n : ℕ, 1099511627776 ≤ n →
      format_filesize (n : ℚ) = fmtOneDec ((n : ℚ) / 1099511627776) ++ " TB") := by
  refine ⟨by decide, by decide, by decide, by decide, ?_, ?_, ?_, ?_, ?_⟩
  · intro n h1 h2
    have hne : ¬((n : ℚ) = 0) := by
      simp only [Nat.cast_eq_zero]
      omega
    have hlt : (n : ℚ) < 1024 := by exact_mod_cast h2
    simp only [format_filesize, filesizeUnits]
    rw [if_neg hne, filesizeLoop_cons, if_pos hlt, String.append_assoc,
      (by decide : (" " ++ "B" : String) = " B")]
  · intro n h1 h2
    have hne : ¬((n : ℚ) = 0) := by
      simp only [Nat.cast_eq_zero]
      omega
    have hge : ¬((n : ℚ) < 1024) := not_lt.2 (by exact_mod_cast h1)
    have hlt2 : (n : ℚ) / 1024 < 1024 := by
      rw [div_lt_iff (by norm_num : (0:ℚ) < 1024)]
      norm_num
      exact_mod_cast h2
    simp only [format_filesize, filesizeUnits]
    rw [if_neg hne, filesizeLoop_cons, if_neg hge, filesizeLoop_cons, if_pos hlt2,
      String.append_assoc, (by decide : (" " ++ "KB" : String) = " KB")]
  · intro n h1 h2
    have hne : ¬((n : ℚ) = 0) := by
      simp only [Nat.cast_eq_zero]
      omega
    have hn1 : (1048576 : ℚ) ≤ (n : ℚ) := by exact_mod_cast h1
    have hge1 : ¬((n : ℚ) < 1024) := not_lt.2 (by linarith)
    have hge2 : ¬((n : ℚ) / 1024 < 1024) := by
      rw [not_lt, le_div_iff (by norm_num : (0:ℚ) < 1024)]
      linarith
    have hlt3 : (n : ℚ) / 1024 / 1024 < 1024 := by
      rw [div_div, div_lt_iff (by norm_num : (0:ℚ) < 1024 * 1024)]
      norm_num
      exact_mod_cast h2
    have e : (n : ℚ) / 1024 / 1024 = (n : ℚ) / 1048576 := by
      rw [div_div]
      norm_num
    simp only [format_filesize, filesizeUnits]
    rw [if_neg hne, filesizeLoop_cons, if_neg hge1, filesizeLoop_cons, if_neg hge2,
      filesizeLoop_cons, if_pos hlt3, e, String.append_assoc,
      (by decide : (" " ++ "MB" : String) = " MB")]
  · intro n h1 h2
    have hne : ¬((n : ℚ) = 0) := by
      simp only [Nat.cast_eq_zero]
      omega
    have hn1 : (1073741824 : ℚ) ≤ (n : ℚ) := by exact_mod_cast h1
    have hge1 : ¬((n : ℚ) < 1024) := not_lt.2 (by linarith)
    have hge2 : ¬((n : ℚ) / 1024 < 1024) := by
      rw [not_lt, le_div_iff (by norm_num : (0:ℚ) < 1024)]
      linarith
    have hge3 : ¬((n : ℚ) / 1024 / 1024 < 1024) := by
      rw [not_lt, div_div, le_div_iff (by norm_num : (0:ℚ) < 1024 * 1024)]
      linarith
    have hlt4 : (n : ℚ) / 1024 / 1024 / 1024 < 1024 := by
      rw [div_div, div_div, div_lt_iff (by norm_num : (0:ℚ) < 1024 * (1024 * 1024))]
      norm_num
      exact_mod_cast h2
    have e : (n : ℚ) / 1024 / 1024 / 1024 = (n : ℚ) / 1073741824 := by
      rw [div_div, div_div]
      norm_num
    simp only [format_filesize, filesizeUnits]
    rw [if_neg hne, filesizeLoop_cons, if_neg hge1, filesizeLoop_cons, if_neg hge2,
      filesizeLoop_cons, if_neg hge3, filesizeLoop_cons, if_pos hlt4, e,
      String.append_assoc, (by decide : (" " ++ "GB" : String) = " GB")]
  · intro n h1
    have hne : ¬((n : ℚ) = 0) := by
      simp only [Nat.cast_eq_zero]
      omega
    have hn1 : (1099511627776 : ℚ) ≤ (n : ℚ) := by exact_mod_cast h1
    have hge1 : ¬((n : ℚ) < 1024) := not_lt.2 (by linarith)
    have hge2 : ¬((n : ℚ) / 1024 < 1024) := by
      rw [not_lt, le_div_iff (by norm_num : (0:ℚ) < 1024)]
      linarith
    have hge3 : ¬((n : ℚ) / 1024 / 1024 < 1024) := by
      rw [not_lt, div_div, le_div_iff (by norm_num : (0:ℚ) < 1024 * 1024)]
      linarith
    have hge4 : ¬((n : ℚ) / 1024 / 1024 / 1024 < 1024) := by
      rw [not_lt, div_div, div_div,
        le_div_iff (by norm_num : (0:ℚ) < 1024 * (1024 * 1024))]
      linarith
    have e : (n : ℚ) / 1024 / 1024 / 1024 / 1024 = (n : ℚ) / 1099511627776 := by
      rw [div_div, div_div, div_div]
      norm_num
    simp only [format_filesize, filesizeUnits]
    rw [if_neg hne, filesizeLoop_cons, if_neg hge1, filesizeLoop_cons, if_neg hge2,
      filesizeLoop_cons, if_neg hge3, filesizeLoop_cons, if_neg hge4,
      filesizeLoop_nil, e]

/-- C5 witness: each rung of the ladder exercised at a concrete byte
count. -/
theorem C5_filesize_witness :
    format_filesize ((500 : ℕ) : ℚ) = fmtOneDec ((500 : ℕ) : ℚ) ++ " B" ∧
    format_filesize ((2048 : ℕ) : ℚ) =
      fmtOneDec (((2048 : ℕ) : ℚ) / 1024) ++ " KB" ∧
    format_filesize ((1048576 : ℕ) : ℚ) =
      fmtOneDec (((1048576 : ℕ) : ℚ) / 1048576) ++ " MB" ∧
    format_filesize ((1073741824 : ℕ) : ℚ) =
      fmtOneDec (((1073741824 : ℕ) : ℚ) / 1073741824) ++ " GB" ∧
    format_filesize ((1099511627776 : ℕ) : ℚ) =
      fmtOneDec (((1099511627776 : ℕ) : ℚ) / 1099511627776) ++ " TB" := by
  obtain ⟨-, -, -, -, hB, hKB, hMB, hGB, hTB⟩ := C5_filesize
  exact ⟨hB 500 (by norm_num) (by norm_num), hKB 2048 (by norm_num) (by norm_num),
    hMB 1048576 (by norm_num) (by norm_num),
    hGB 1073741824 (by norm_num) (by norm_num), hTB 1099511627776 (by norm_num)⟩

/-- C4: `is_valid_youtube_url` returns true exactly when one of the
recognized host substrings occurs anywhere in the input (scheme and `www.`
prefixes only extend such an occurrence, so they do not change the
predicate); `"youtube.com/watch?v=abc"` is accepted and `"vimeo.com/12345"`
is rejected. -/
theorem C4_url_validation :
    (∀ url : String, is_valid_youtube_url url =
      recognizedHostSubstrings.any fun sub => strContains url sub) ∧
    is_valid_youtube_url "youtube.com/watch?v=abc" = true ∧
    is_valid_youtube_url "vimeo.com/12345" = false := by
  refine ⟨?_, by decide, by decide⟩
  intro url
  rw [Bool.eq_iff_iff]
  constructor
  · intro h
    simp only [is_valid_youtube_url, Bool.or_eq_true] at h
    simp only [List.any_eq_true]
    rcases h with (((h | h) | h) | h) | h
    · simp only [pattern1, List.any_eq_true] at h
      obtain ⟨sc, -, w, -, host, hhost, tld, htld, hc⟩ := h
      have hc2 := contains_of_append (sc ++ w) _ hc
      simp only [hostAlts, List.mem_cons, List.not_mem_nil, or_false] at hhost
      simp only [tldAlts, List.mem_cons, List.not_mem_nil, or_false] at htld
      rcases hhost with rfl | rfl | rfl <;> rcases htld with rfl | rfl
      · refine ⟨"youtube.com/", by decide, ?_⟩
        rw [(by decide : ("youtube" ++ "." ++ "com" ++ "/" : String) = "youtube.com/")] at hc2
        exact hc2
      · refine ⟨"youtube.be/", by decide, ?_⟩
        rw [(by decide : ("youtube" ++ "." ++ "be" ++ "/" : String) = "youtube.be/")] at hc2
        exact hc2
      · refine ⟨"youtu.com/", by decide, ?_⟩
        rw [(by decide : ("youtu" ++ "." ++ "com" ++ "/" : String) = "youtu.com/")] at hc2
        exact hc2
      · refine ⟨"youtu.be/", by decide, ?_⟩
        rw [(by decide : ("youtu" ++ "." ++ "be" ++ "/" : String) = "youtu.be/")] at hc2
        exact hc2
      · refine ⟨"youtube-nocookie.com/", by decide, ?_⟩
        rw [(by decide :
          ("youtube-nocookie" ++ "." ++ "com" ++ "/" : String) = "youtube-nocookie.com/")] at hc2
        exact hc2
      · refine ⟨"youtube-nocookie.be/", by decide, ?_⟩
        rw [(by decide :
          ("youtube-nocookie" ++ "." ++ "be" ++ "/" : String) = "youtube-nocookie.be/")] at hc2
        exact hc2
    · simp only [pattern2, List.any_eq_true] at h
      obtain ⟨sc, -, w, -, hc⟩ := h
      exact ⟨"youtu.be/", by decide, contains_of_append (sc ++ w) _ hc⟩
    · simp only [pattern3, List.any_eq_true] at h
      obtain ⟨sc, -, w, -, hc⟩ := h
      exact ⟨"youtube.com/", by decide,
        @strContains_trans url "youtube.com/watch?v=" "youtube.com/" (by decide)
          (contains_of_append (sc ++ w) _ hc)⟩
    · simp only [pattern4, List.any_eq_true] at h
      obtain ⟨sc, -, w, -, hc⟩ := h
      exact ⟨"youtube.com/", by decide,
        @strContains_trans url "youtube.com/embed/" "youtube.com/" (by decide)
          (contains_of_append (sc ++ w) _ hc)⟩
    · simp only [pattern5, List.any_eq_true] at h
      obtain ⟨sc, -, w, -, hc⟩ := h
      exact ⟨"youtube.com/", by decide,
        @strContains_trans url "youtube.com/v/" "youtube.com/" (by decide)
          (contains_of_append (sc ++ w) _ hc)⟩
  · intro h
    simp only [List.any_eq_true] at h
    obtain ⟨sub, hmem, hc⟩ := h
    simp only [recognizedHostSubstrings, List.mem_cons, List.not_mem_nil, or_false] at hmem
    simp only [is_valid_youtube_url, Bool.or_eq_true]
    refine Or.inl (Or.inl (Or.inl (Or.inl ?_)))
    simp only [pattern1, List.any_eq_true]
    rcases hmem with rfl | rfl | rfl | rfl | rfl | rfl
    · refine ⟨"", by decide, "", by decide, "youtube", by decide, "com", by decide, ?_⟩
      rw [(by decide :
        (("" ++ "") ++ ("youtube" ++ "." ++ "com" ++ "/") : String) = "youtube.com/")]
      exact hc
    · refine ⟨"", by decide, "", by decide, "youtube", by decide, "be", by decide, ?_⟩
      rw [(by decide :
        (("" ++ "") ++ ("youtube" ++ "." ++ "be" ++ "/") : String) = "youtube.be/")]
      exact hc
    · refine ⟨"", by decide, "", by decide, "youtu", by decide, "com", by decide, ?_⟩
      rw [(by decide :
        (("" ++ "") ++ ("youtu" ++ "." ++ "com" ++ "/") : String) = "youtu.com/")]
      exact hc
    · refine ⟨"", by decide, "", by decide, "youtu", by decide, "be", by decide, ?_⟩
      rw [(by decide :
        (("" ++ "") ++ ("youtu" ++ "." ++ "be" ++ "/") : String) = "youtu.be/")]
      exact hc
    · refine ⟨"", by decide, "", by decide, "youtube-nocookie", by decide, "com", by decide, ?_⟩
      rw [(by decide :
        (("" ++ "") ++ ("youtube-nocookie" ++ "." ++ "com" ++ "/") : String) =
          "youtube-nocookie.com/")]
      exact hc
    · refine ⟨"", by decide, "", by decide, "youtube-nocookie", by decide, "be", by decide, ?_⟩
      rw [(by decide :
        (("" ++ "") ++ ("youtube-nocookie" ++ "." ++ "be" ++ "/") : String) =
          "youtube-nocookie.be/")]
      exact hc
